import Mathlib

/-!
Verification development for the express-cassandra ORM core
(src/lib/orm/base_model.js and src/lib/orm/apollo.js): the schema
synchronization decision logic and the statement builders, embedded
shallowly.  Helper modules that live outside the analyzed sources
(utils/parser, utils/normalizer) are treated as opaque inputs: their
outputs are universally quantified parameters of the embedded functions.
-/

/-- A small model of JavaScript runtime values, sufficient to express the
truthiness and strict-equality tests performed by the source
(hook return values, query parameters). Floating point and NaN are not
modelled; integers stand for JS numbers. -/
inductive JsVal where
  | vundef
  | vnull
  | vbool (b : Bool)
  | vnum (n : Int)
  | vstr (s : String)
deriving DecidableEq, Repr

/-- JavaScript truthiness of a `JsVal` (the semantics of `if (v)`). -/
def jsTruthy : JsVal → Bool
  | .vundef => false
  | .vnull => false
  | .vbool b => b
  | .vnum n => decide (n ≠ 0)
  | .vstr s => decide (s ≠ "")

/-- A raw schema (declared model schema or live database schema) as far as
the sync decision needs to carry it: the decision logic itself only looks
at schemas through the normalizer, which is kept abstract. -/
structure Schema where
  fields : List (String × String)
  key : List (List String)
  clustering_order : List (String × String)
deriving DecidableEq, Repr

/-- The normalized form produced by normalizer.normalize_model_schema
(utils/normalizer, outside the analyzed sources): a canonical record that
_sync_model_definition deep-compares with lodash isEqual and whose `key`
and `clustering_order` components gate the alter path
(base_model.js lines 196, 204). Deep equality is structural equality. -/
structure NormalizedSchema where
  fields : List (String × String)
  key : List (List String)
  clustering_order : List (String × String)
  materialized_views : List String
deriving DecidableEq, Repr

/-- The observable decision taken by BaseModel._sync_model_definition
(base_model.js lines 118-221) for one sync call. `alterError e` is the
case where init_alter_operations failed with a message other than
alter_impossible and the error was forwarded to the callback. -/
inductive MigrationDecision where
  | noOp
  | create
  | rejectSchemaNotFound
  | rejectSuspended
  | alter
  | dropRecreate
  | alterError (e : String)
deriving DecidableEq, Repr

/-- Migration policy resolution, base_model.js lines 126-131:
an unset or falsy `properties.migration` (modelled as the empty string)
defaults to drop when dropTableOnSchemaChange is set, else safe; then
NODE_ENV === production forces safe unconditionally. -/
def resolve_migration (migration : String) (dropTableOnSchemaChange : Bool)
    (production : Bool) : String :=
  let m := if migration = ""
    then (if dropTableOnSchemaChange then "drop" else "safe")
    else migration
  if production then "safe" else m

/-- The decision logic of BaseModel._sync_model_definition
(base_model.js lines 118-221).  `createTable` models
`properties.createTable` (the test in the source is `=== false`);
`dbSchema` is the result of tableBuilder.get_table_schema (`none` when the
table does not exist); `normalize` stands for
normalizer.normalize_model_schema applied to either schema; `alterResult`
is the error argument init_alter_operations would deliver to its callback
when the alter branch invokes it (`none` for success). -/
def sync_model_definition (production : Bool) (migration : String)
    (dropTableOnSchemaChange : Bool) (createTable : Option Bool)
    (dbSchema : Option Schema) (modelSchema : Schema)
    (normalize : Schema → NormalizedSchema) (alterResult : Option String) :
    MigrationDecision :=
  let m := resolve_migration migration dropTableOnSchemaChange production
  match dbSchema with
  | none =>
    if createTable = some false then .rejectSchemaNotFound else .create
  | some db =>
    let nModel := normalize modelSchema
    let nDB := normalize db
    if nModel = nDB then .noOp
    else if m = "alter" then
      if nModel.key = nDB.key ∧ nModel.clustering_order = nDB.clustering_order then
        match alterResult with
        | none => .alter
        | some msg =>
          if msg = "alter_impossible" then .dropRecreate else .alterError msg
      else .dropRecreate
    else if m = "drop" then .dropRecreate
    else .rejectSuspended

/-- A structured query object as passed by callers to find, findOne,
update, delete.  `dollarLimit` is the reserved $limit key (set by findOne,
base_model.js line 817); all other keys are opaque to the embedded
operations and kept as an association list. -/
structure QueryObject where
  dollarLimit : Option Int := none
  filters : List (String × JsVal) := []
deriving DecidableEq, Repr

/-- Options consumed directly by BaseModel.get_find_query
(base_model.js lines 293-311): the remaining option keys (select, ...)
are read only by the clause builders, which are abstract here. -/
structure FindOptions where
  distinct : Bool := false
  materialized_view : Option String := none
  allow_filtering : Bool := false
deriving DecidableEq, Repr

/-- Result shape of parser.get_where_clause and parser.get_if_clause: a
clause string plus its positional parameters (utils/parser, outside the
analyzed sources, treated as opaque). -/
structure WhereClause where
  query : String
  params : List JsVal
deriving DecidableEq, Repr

/-- A built statement: query text plus positional parameter list. -/
structure BuiltQuery where
  query : String
  params : List JsVal
deriving DecidableEq, Repr

/-- The clause builders from utils/parser that get_find_query invokes
(base_model.js lines 294-298).  They live outside the analyzed sources, so
they are carried as an abstract record of functions: every theorem below
quantifies over them. -/
structure FindClauses where
  get_orderby_clause : QueryObject → String
  get_limit_clause : QueryObject → String
  get_where_clause : Schema → QueryObject → WhereClause
  get_select_clause : FindOptions → String
  get_groupby_clause : FindOptions → String

/-- BaseModel.get_find_query (base_model.js lines 293-311): composes the
SELECT statement by successive appends, each guarded by the truthiness
(non-emptiness) of the clause, and returns the WHERE parameters as the
statement parameters. -/
def get_find_query (p : FindClauses) (schema : Schema) (table_name : String)
    (queryObject : QueryObject) (options : FindOptions) : BuiltQuery :=
  let orderbyClause := p.get_orderby_clause queryObject
  let limitClause := p.get_limit_clause queryObject
  let whereClause := p.get_where_clause schema queryObject
  let selectClause := p.get_select_clause options
  let groupbyClause := p.get_groupby_clause options
  let query := "SELECT " ++ (if options.distinct then "DISTINCT " else "")
    ++ selectClause ++ " FROM \""
    ++ (match options.materialized_view with
        | some mv => mv
        | none => table_name) ++ "\""
  let query := if whereClause.query ≠ "" then query ++ (" " ++ whereClause.query) else query
  let query := if orderbyClause ≠ "" then query ++ (" " ++ orderbyClause) else query
  let query := if groupbyClause ≠ "" then query ++ (" " ++ groupbyClause) else query
  let query := if limitClause ≠ "" then query ++ (" " ++ limitClause) else query
  let query := if options.allow_filtering then query ++ " ALLOW FILTERING" else query
  { query := query ++ ";", params := whereClause.params }

/-- Result shape of parser.get_update_value_expression (utils/parser,
outside the analyzed sources, opaque here): SET-clause fragments, their
parameters, and whether the parser already delivered an error. -/
structure UpdateValueExpression where
  updateClauses : List String
  queryParams : List JsVal
  errorHappened : Bool
deriving DecidableEq, Repr

/-- Result shape of parser.get_save_value_expression (utils/parser,
outside the analyzed sources, opaque here). -/
structure SaveValueExpression where
  identifiers : List String
  values : List String
  queryParams : List JsVal
  errorHappened : Bool
deriving DecidableEq, Repr

/-- Observable outcome of the statement-building phase of
BaseModel.update / BaseModel.delete / BaseModel.prototype.save, up to the
point where the statement and parameters are fixed. `err name` is an
error delivered through parser.callback_or_throw; `valueAbort` is the
early return taken when the value-expression parser reported
errorHappened. -/
inductive BuildOutcome where
  | err (name : String)
  | valueAbort
  | ok (query : String) (params : List JsVal)
deriving DecidableEq, Repr

/-- Statement building of BaseModel.update after the before-hook check
(base_model.js lines 851-902).  `whereRes` is the result of
parser.get_where_clause, which may throw (`Except.error`); `conditions`
is the get_if_clause result when options.conditions is set; a numeric
options.ttl is `some n`. -/
def update_build_rest (tableName : String) (uexpr : UpdateValueExpression)
    (whereRes : Except String WhereClause) (conditions : Option WhereClause)
    (if_exists : Bool) (ttl : Option Int) : BuildOutcome :=
  if uexpr.errorHappened then .valueAbort
  else
    match whereRes with
    | .error e => .err e
    | .ok wc =>
      let finalParams := uexpr.queryParams
      let finalParams := match ttl with
        | some n => JsVal.vnum n :: finalParams
        | none => finalParams
      let finalParams := finalParams ++ wc.params
      let query := "UPDATE \"" ++ tableName ++ "\""
        ++ (match ttl with
            | some _ => " USING TTL ?"
            | none => "")
        ++ " SET " ++ String.intercalate ", " uexpr.updateClauses
        ++ " " ++ wc.query
      match conditions with
      | some ifClause =>
        if ifClause.query ≠ "" then
          .ok (query ++ (" " ++ ifClause.query) ++ ";") (finalParams ++ ifClause.params)
        else .ok (query ++ ";") finalParams
      | none =>
        if if_exists then .ok (query ++ " IF EXISTS" ++ ";") finalParams
        else .ok (query ++ ";") finalParams

/-- Entry of BaseModel.update: the before_update hook check (line 846,
strict equality with false) guards the statement building above. -/
def update_build (tableName : String) (before_update : Option JsVal)
    (uexpr : UpdateValueExpression) (whereRes : Except String WhereClause)
    (conditions : Option WhereClause) (if_exists : Bool) (ttl : Option Int) :
    BuildOutcome :=
  match before_update with
  | some v =>
    if v = JsVal.vbool false then .err "model.update.before.error"
    else update_build_rest tableName uexpr whereRes conditions if_exists ttl
  | none => update_build_rest tableName uexpr whereRes conditions if_exists ttl

/-- Statement building of BaseModel.delete after the before-hook check
(base_model.js lines 946-973): the DELETE statement from the where
clause. -/
def delete_build_rest (tableName : String)
    (whereRes : Except String WhereClause) : BuildOutcome :=
  match whereRes with
  | .error e => .err e
  | .ok wc =>
    .ok ("DELETE FROM \"" ++ tableName ++ "\" " ++ wc.query ++ ";") wc.params

/-- Entry of BaseModel.delete (base_model.js lines 927-973): the
before_delete hook check (strict equality with false, line 941) guards the
statement building. -/
def delete_build (tableName : String) (before_delete : Option JsVal)
    (whereRes : Except String WhereClause) : BuildOutcome :=
  match before_delete with
  | some v =>
    if v = JsVal.vbool false then .err "model.delete.before.error"
    else delete_build_rest tableName whereRes
  | none => delete_build_rest tableName whereRes

/-- Statement building of BaseModel.prototype.save after the before-hook
check (base_model.js lines 1059-1091): the INSERT statement, IF NOT
EXISTS, and a numeric ttl appended as the last parameter. -/
def save_build_rest (tableName : String) (sexpr : SaveValueExpression)
    (if_not_exist : Bool) (ttl : Option Int) : BuildOutcome :=
  if sexpr.errorHappened then .valueAbort
  else
    let query := "INSERT INTO \"" ++ tableName ++ "\" ( "
      ++ String.intercalate " , " sexpr.identifiers ++ " ) VALUES ( "
      ++ String.intercalate " , " sexpr.values ++ " )"
    let query := if if_not_exist then query ++ " IF NOT EXISTS" else query
    match ttl with
    | some n => .ok (query ++ " USING TTL ?" ++ ";") (sexpr.queryParams ++ [JsVal.vnum n])
    | none => .ok (query ++ ";") sexpr.queryParams

/-- Entry of BaseModel.prototype.save (base_model.js lines 1037-1091):
the before_save hook check (strict equality with false, line 1054)
guards the statement building. -/
def save_build (tableName : String) (before_save : Option JsVal)
    (sexpr : SaveValueExpression) (if_not_exist : Bool) (ttl : Option Int) :
    BuildOutcome :=
  match before_save with
  | some v =>
    if v = JsVal.vbool false then .err "model.save.before.error"
    else save_build_rest tableName sexpr if_not_exist ttl
  | none => save_build_rest tableName sexpr if_not_exist ttl

/-- Operations of one model handle that touch the readiness flag `_ready`:
init (line 331 sets it), syncDB (line 356 sets it after the sync sequence
succeeds; a failing sync leaves it), and any table-scoped operation, which
goes through _execute_table_query / _execute_table_eachRow /
_execute_table_stream (lines 280-290, 410-420, 476-486) and calls init
first when the flag is not yet set. -/
inductive ModelOp where
  | init
  | syncDB (syncSucceeds : Bool)
  | tableOp
deriving DecidableEq, Repr

/-- Effect of one model operation on the `_ready` flag, read off the
source locations listed on `ModelOp`. -/
def apply_model_op (ready : Bool) : ModelOp → Bool
  | .init => true
  | .syncDB ok => if ok then true else ready
  | .tableOp => if ready then ready else true

/-- The query object BaseModel.findOne forwards to find: the object given
by the caller with its $limit key overwritten to 1 (base_model.js line
817; the source mutates that object in place). -/
def findOne_queryObject (queryObject : QueryObject) : QueryObject :=
  { queryObject with dollarLimit := some 1 }

/-- BaseModel.findOne (base_model.js lines 808-830), with the delegated
find modelled as a function from the forwarded query object to the result
rows: the callback receives the first row when there is one
(callback(null, results[0])) and nothing otherwise (callback()). -/
def findOne {α : Type} (find : QueryObject → List α)
    (queryObject : QueryObject) : Option α :=
  match find (findOne_queryObject queryObject) with
  | r :: _ => some r
  | [] => none

/-- Auxiliary: appending under a guard equals appending the guarded
suffix, with the empty string in the negative case. -/
theorem append_guard (s t : String) (c : Prop) [Decidable c] :
    (if c then s ++ t else s) = s ++ (if c then t else "") := by
  split <;> simp

/-- C1 counterexample: in production, with the live table absent and
createTable === false, the sync decision is the schema-not-found reject,
which is none of no-op, create, or the migration-suspended reject, so the
claimed three-way enumeration of production outcomes is incomplete. -/
theorem sync_production_floor_cex :
    sync_model_definition true "drop" false (some false) none ⟨[], [], []⟩
        (fun _ => ⟨[], [], [], []⟩) none = .rejectSchemaNotFound ∧
    ¬(sync_model_definition true "drop" false (some false) none ⟨[], [], []⟩
          (fun _ => ⟨[], [], [], []⟩) none = .noOp ∨
      sync_model_definition true "drop" false (some false) none ⟨[], [], []⟩
          (fun _ => ⟨[], [], [], []⟩) none = .create ∨
      sync_model_definition true "drop" false (some false) none ⟨[], [], []⟩
          (fun _ => ⟨[], [], [], []⟩) none = .rejectSuspended) := by
  decide

/-- C1 (amended): in production the effective migration policy resolves to
safe whatever the configured policy, and the sync decision is never alter
and never drop-and-recreate: it is one of no-op, create, the
schema-not-found reject (table absent with createTable === false), or the
migration-suspended reject. -/
theorem sync_production_floor :
    ∀ (migration : String) (dropTableOnSchemaChange : Bool)
      (createTable : Option Bool) (dbSchema : Option Schema)
      (modelSchema : Schema) (normalize : Schema → NormalizedSchema)
      (alterResult : Option String),
      resolve_migration migration dropTableOnSchemaChange true = "safe" ∧
      (sync_model_definition true migration dropTableOnSchemaChange createTable
          dbSchema modelSchema normalize alterResult = .noOp ∨
       sync_model_definition true migration dropTableOnSchemaChange createTable
          dbSchema modelSchema normalize alterResult = .create ∨
       sync_model_definition true migration dropTableOnSchemaChange createTable
          dbSchema modelSchema normalize alterResult = .rejectSchemaNotFound ∨
       sync_model_definition true migration dropTableOnSchemaChange createTable
          dbSchema modelSchema normalize alterResult = .rejectSuspended) := by
  intro m d ct dbs ms nf ar
  refine ⟨rfl, ?_⟩
  unfold sync_model_definition resolve_migration
  cases dbs with
  | none =>
    by_cases h : ct = some false <;> simp [h]
  | some db =>
    by_cases h : nf ms = nf db <;> simp [h]

/-- C2: under the alter policy (outside production), whenever the
normalized key structures or the normalized clustering orders differ, the
sync decision is drop-and-recreate, independently of what the incremental
alter routine would report: that routine is never reached. -/
theorem sync_alter_key_change_recreates :
    ∀ (modelSchema db : Schema) (normalize : Schema → NormalizedSchema)
      (dropTableOnSchemaChange : Bool) (createTable : Option Bool)
      (alterResult : Option String),
      (normalize modelSchema).key ≠ (normalize db).key ∨
        (normalize modelSchema).clustering_order ≠ (normalize db).clustering_order →
      sync_model_definition false "alter" dropTableOnSchemaChange createTable
        (some db) modelSchema normalize alterResult = .dropRecreate := by
  intro ms db nf d ct ar h
  have hne : nf ms ≠ nf db := by
    intro he
    cases h with
    | inl hk => exact hk (congrArg NormalizedSchema.key he)
    | inr hc => exact hc (congrArg NormalizedSchema.clustering_order he)
  have hkc : ¬((nf ms).key = (nf db).key ∧
      (nf ms).clustering_order = (nf db).clustering_order) := by
    intro hand
    cases h with
    | inl hk => exact hk hand.1
    | inr hc => exact hc hand.2
  unfold sync_model_definition resolve_migration
  simp [hne, hkc]

/-- C2 witness: a concrete pair of schemas differing in key structure
under the alter policy goes straight to drop-and-recreate. -/
theorem sync_alter_key_change_recreates_witness :
    ([["a"]] : List (List String)) ≠ [["a"], ["b"]] ∧
    sync_model_definition false "alter" false none
        (some ⟨[("a", "int")], [["a"], ["b"]], []⟩) ⟨[("a", "int")], [["a"]], []⟩
        (fun s => ⟨s.fields, s.key, s.clustering_order, []⟩)
        (some "alter_impossible") = .dropRecreate := by
  refine ⟨by decide, ?_⟩
  exact sync_alter_key_change_recreates _ _ _ _ _ _ (Or.inl (by decide))

/-- C3: whenever the live table exists and the two normalized schemas are
equal, the sync decision is no-op, for every environment, policy value,
createTable setting, and alter-routine outcome: the equality check
precedes the policy branching. -/
theorem sync_noop_when_normalized_equal :
    ∀ (production : Bool) (migration : String) (dropTableOnSchemaChange : Bool)
      (createTable : Option Bool) (db modelSchema : Schema)
      (normalize : Schema → NormalizedSchema) (alterResult : Option String),
      normalize modelSchema = normalize db →
      sync_model_definition production migration dropTableOnSchemaChange
        createTable (some db) modelSchema normalize alterResult = .noOp := by
  intro p m d ct db ms nf ar h
  unfold sync_model_definition
  simp [h]

/-- C3 witness: equal normalized schemas give no-op under the drop
policy. -/
theorem sync_noop_when_normalized_equal_witness :
    (fun (s : Schema) => (⟨s.fields, s.key, s.clustering_order, []⟩ : NormalizedSchema))
        ⟨[("a", "int")], [["a"]], []⟩ =
      (fun (s : Schema) => (⟨s.fields, s.key, s.clustering_order, []⟩ : NormalizedSchema))
        ⟨[("a", "int")], [["a"]], []⟩ ∧
    sync_model_definition false "drop" false none
        (some ⟨[("a", "int")], [["a"]], []⟩) ⟨[("a", "int")], [["a"]], []⟩
        (fun s => ⟨s.fields, s.key, s.clustering_order, []⟩) none = .noOp := by
  refine ⟨rfl, ?_⟩
  exact sync_noop_when_normalized_equal _ _ _ _ _ _ _ _ rfl

/-- C4: when the live table is absent, the sync decision is the
schema-not-found reject exactly when createTable === false, and create
otherwise, for every environment, policy, schema, and alter-routine
outcome. -/
theorem sync_absent_table :
    ∀ (production : Bool) (migration : String) (dropTableOnSchemaChange : Bool)
      (createTable : Option Bool) (modelSchema : Schema)
      (normalize : Schema → NormalizedSchema) (alterResult : Option String),
      sync_model_definition production migration dropTableOnSchemaChange
          createTable none modelSchema normalize alterResult =
        (if createTable = some false then .rejectSchemaNotFound else .create) := by
  intro p m d ct ms nf ar
  rfl

/-- C5: under the alter policy with identical normalized key and
clustering order (and differing normalized schemas), the alter routine
failing with the alter_impossible message falls back to drop-and-recreate,
any other alter failure is forwarded unchanged, and no sync call ever
delivers an alter_impossible error to the caller. -/
theorem sync_alter_impossible_fallback :
    ∀ (modelSchema db : Schema) (normalize : Schema → NormalizedSchema)
      (dropTableOnSchemaChange : Bool) (createTable : Option Bool) (e : String),
      normalize modelSchema ≠ normalize db →
      (normalize modelSchema).key = (normalize db).key →
      (normalize modelSchema).clustering_order = (normalize db).clustering_order →
      (sync_model_definition false "alter" dropTableOnSchemaChange createTable
          (some db) modelSchema normalize (some "alter_impossible") = .dropRecreate ∧
       (e ≠ "alter_impossible" →
         sync_model_definition false "alter" dropTableOnSchemaChange createTable
           (some db) modelSchema normalize (some e) = .alterError e) ∧
       (∀ (p : Bool) (m : String) (d : Bool) (ct : Option Bool)
          (dbs : Option Schema) (ms : Schema) (nf : Schema → NormalizedSchema)
          (ar : Option String),
          sync_model_definition p m d ct dbs ms nf ar ≠
            .alterError "alter_impossible")) := by
  intro ms db nf d ct e hne hk hc
  refine ⟨?_, ?_, ?_⟩
  · unfold sync_model_definition resolve_migration
    simp [hne, hk, hc]
  · intro he
    unfold sync_model_definition resolve_migration
    simp [hne, hk, hc, he]
  · intro p m d1 ct1 dbs ms1 nf1 ar
    unfold sync_model_definition
    cases dbs with
    | none => by_cases hct : ct1 = some false <;> simp [hct]
    | some db1 =>
      by_cases h1 : nf1 ms1 = nf1 db1
      · simp [h1]
      · simp only [if_neg h1]
        split
        · split
          · cases ar with
            | none => simp
            | some msg =>
              by_cases h2 : msg = "alter_impossible" <;> simp [h2]
          · simp
        · split <;> simp

/-- C5 witness: with identical keys and clustering order, a concrete
alter_impossible failure falls back to drop-and-recreate and a concrete
other failure is forwarded unchanged. -/
theorem sync_alter_impossible_fallback_witness :
    sync_model_definition false "alter" false none
        (some ⟨[("a", "int")], [["a"]], []⟩) ⟨[("a", "text")], [["a"]], []⟩
        (fun s => ⟨s.fields, s.key, s.clustering_order, []⟩)
        (some "alter_impossible") = .dropRecreate ∧
    sync_model_definition false "alter" false none
        (some ⟨[("a", "int")], [["a"]], []⟩) ⟨[("a", "text")], [["a"]], []⟩
        (fun s => ⟨s.fields, s.key, s.clustering_order, []⟩)
        (some "boom") = .alterError "boom" := by
  have h := sync_alter_impossible_fallback ⟨[("a", "text")], [["a"]], []⟩
    ⟨[("a", "int")], [["a"]], []⟩
    (fun s => ⟨s.fields, s.key, s.clustering_order, []⟩) false none "boom"
    (by decide) rfl rfl
  exact ⟨h.1, h.2.1 (by decide)⟩

/-- C6: get_find_query produces the SELECT statement as the fixed-order
concatenation of the select head (FROM naming the materialized view in
place of the table when one is requested), then the WHERE, ORDER BY,
GROUP BY, and LIMIT clauses each only when non-empty, then the ALLOW
FILTERING suffix when the option is set; the parameter list is exactly
the WHERE-clause parameters. -/
theorem get_find_query_spec :
    ∀ (p : FindClauses) (schema : Schema) (table_name : String)
      (queryObject : QueryObject) (options : FindOptions),
      get_find_query p schema table_name queryObject options =
        { query :=
            "SELECT " ++ (if options.distinct then "DISTINCT " else "")
              ++ p.get_select_clause options ++ " FROM \""
              ++ (match options.materialized_view with
                  | some mv => mv
                  | none => table_name) ++ "\""
              ++ (if (p.get_where_clause schema queryObject).query ≠ "" then
                    " " ++ (p.get_where_clause schema queryObject).query else "")
              ++ (if p.get_orderby_clause queryObject ≠ "" then
                    " " ++ p.get_orderby_clause queryObject else "")
              ++ (if p.get_groupby_clause options ≠ "" then
                    " " ++ p.get_groupby_clause options else "")
              ++ (if p.get_limit_clause queryObject ≠ "" then
                    " " ++ p.get_limit_clause queryObject else "")
              ++ (if options.allow_filtering then " ALLOW FILTERING" else "")
              ++ ";",
          params := (p.get_where_clause schema queryObject).params } := by
  intro p s tn qo o
  unfold get_find_query
  simp only [append_guard]

/-- The parameter list of a successfully built statement. -/
def build_params : BuildOutcome → Option (List JsVal)
  | .ok _ ps => some ps
  | .err _ => none
  | .valueAbort => none

/-- C7: in the update statement a numeric ttl is bound as the first
parameter, before the SET-clause parameters (then WHERE, then IF
parameters), while in the insert statement built by save it is bound as
the last parameter, after the column-value parameters. -/
theorem ttl_parameter_placement :
    ∀ (tableName : String) (updateClauses : List String) (setParams : List JsVal)
      (wc : WhereClause) (if_exists : Bool) (n : Int)
      (identifiers values : List String) (saveParams : List JsVal)
      (if_not_exist : Bool),
      build_params (update_build tableName none ⟨updateClauses, setParams, false⟩
          (.ok wc) none if_exists (some n))
        = some (JsVal.vnum n :: (setParams ++ wc.params)) ∧
      (∀ ifClause : WhereClause, ifClause.query ≠ "" →
        build_params (update_build tableName none ⟨updateClauses, setParams, false⟩
            (.ok wc) (some ifClause) if_exists (some n))
          = some ((JsVal.vnum n :: (setParams ++ wc.params)) ++ ifClause.params)) ∧
      build_params (save_build tableName none ⟨identifiers, values, saveParams, false⟩
          if_not_exist (some n))
        = some (saveParams ++ [JsVal.vnum n]) := by
  intro tn cls sp wc ife n ids vals svp ine
  refine ⟨?_, ?_, ?_⟩
  · cases ife <;> rfl
  · intro ic hic
    unfold update_build update_build_rest
    simp [hic, build_params]
  · cases ine <;> rfl

/-- C7 witness: with a two-field schema and ttl 300 the update binds 300
first (also when an IF clause contributes trailing parameters) and the
save binds 300 last. -/
theorem ttl_parameter_placement_witness :
    build_params (update_build "events" none
        ⟨["\"a\" = ?"], [JsVal.vnum 5], false⟩
        (.ok ⟨"WHERE \"b\" = ?", [JsVal.vnum 7]⟩) (some ⟨"IF \"c\" = ?", [JsVal.vnum 9]⟩)
        false (some 300))
      = some ((JsVal.vnum 300 :: ([JsVal.vnum 5] ++ [JsVal.vnum 7])) ++ [JsVal.vnum 9]) ∧
    build_params (save_build "events" none
        ⟨["\"a\"", "\"b\""], ["?", "?"], [JsVal.vnum 5, JsVal.vnum 7], false⟩
        false (some 300))
      = some ([JsVal.vnum 5, JsVal.vnum 7] ++ [JsVal.vnum 300]) := by
  have h := ttl_parameter_placement "events" ["\"a\" = ?"] [JsVal.vnum 5]
    ⟨"WHERE \"b\" = ?", [JsVal.vnum 7]⟩ false 300 ["\"a\"", "\"b\""] ["?", "?"]
    [JsVal.vnum 5, JsVal.vnum 7] false
  exact ⟨h.2.1 ⟨"IF \"c\" = ?", [JsVal.vnum 9]⟩ (by decide), h.2.2⟩

/-- C8 counterexample: the number 0 is a falsy hook return value, yet an
update whose before_update hook returns 0 is not aborted with the
before-hook error: the source aborts only on a strict === false return. -/
theorem before_hook_falsy_cex :
    jsTruthy (JsVal.vnum 0) = false ∧
    update_build "t" (some (JsVal.vnum 0)) ⟨[], [], false⟩
        (Except.ok ⟨"", []⟩) none false none
      ≠ .err "model.update.before.error" := by
  decide

/-- C8 (amended): for save, update, and delete, a declared before-hook
returning the exact boolean false (the strict === false test of the
source) aborts the operation with the distinct before-hook error for that
operation, before any statement is built. -/
theorem before_hook_false_aborts :
    ∀ (tableName : String) (uexpr : UpdateValueExpression)
      (whereRes : Except String WhereClause) (conditions : Option WhereClause)
      (if_exists : Bool) (ttl : Option Int)
      (whereRes2 : Except String WhereClause) (sexpr : SaveValueExpression)
      (if_not_exist : Bool) (ttl2 : Option Int),
      update_build tableName (some (JsVal.vbool false)) uexpr whereRes
          conditions if_exists ttl = .err "model.update.before.error" ∧
      delete_build tableName (some (JsVal.vbool false)) whereRes2
          = .err "model.delete.before.error" ∧
      save_build tableName (some (JsVal.vbool false)) sexpr if_not_exist ttl2
          = .err "model.save.before.error" := by
  intro tn uexpr wr c ife ttl wr2 sexpr ine ttl2
  exact ⟨rfl, rfl, rfl⟩

/-- C9: the readiness flag of a model handle is monotone: every operation
maps a ready handle to a ready handle, so once the flag is set by init,
by a successful syncDB, or by the implicit init of a table-scoped
operation, it stays set across any further sequence of operations. -/
theorem readiness_monotone :
    (∀ (op : ModelOp), apply_model_op true op = true) ∧
    (∀ (ops : List ModelOp), List.foldl apply_model_op true ops = true) := by
  have hstep : ∀ (op : ModelOp), apply_model_op true op = true := by
    intro op
    cases op <;> simp [apply_model_op]
  refine ⟨hstep, ?_⟩
  intro ops
  induction ops with
  | nil => rfl
  | cons op rest ih =>
    calc List.foldl apply_model_op true (op :: rest)
        = List.foldl apply_model_op (apply_model_op true op) rest := rfl
      _ = List.foldl apply_model_op true rest := by rw [hstep op]
      _ = true := ih

/-- C10: findOne forwards the query object of the caller with its $limit key
set to 1 and everything else unchanged, and delivers the first result row
when at least one row matches and no value when none does. -/
theorem findOne_spec :
    ∀ {α : Type} (find : QueryObject → List α) (queryObject : QueryObject),
      (findOne_queryObject queryObject).dollarLimit = some 1 ∧
      (findOne_queryObject queryObject).filters = queryObject.filters ∧
      (∀ (r : α) (l : List α),
        find (findOne_queryObject queryObject) = r :: l →
        findOne find queryObject = some r) ∧
      (find (findOne_queryObject queryObject) = [] →
        findOne find queryObject = none) := by
  intro α find qo
  refine ⟨rfl, rfl, ?_, ?_⟩
  · intro r l h
    unfold findOne
    rw [h]
  · intro h
    unfold findOne
    rw [h]

/-- C10 witness: a find returning one row makes findOne deliver that
row. -/
theorem findOne_spec_witness :
    findOne (fun _ => [(7 : Nat)]) ⟨none, []⟩ = some 7 :=
  (findOne_spec (fun _ => [(7 : Nat)]) ⟨none, []⟩).2.2.1 7 [] rfl
